import Mathlib

/-!
Verification of `single_translator_web/app.py`: a Flask web app that
translates text via googletrans (with retry/backoff) and optionally
synthesizes speech via gTTS.  External providers (the network calls of
`translator.translate`, the `gTTS` constructor and `tts.save`, and the
`uuid` generator) are modelled as oracles passed in as parameters; the
control flow around them is embedded faithfully from the source.
-/

namespace SingleTranslatorWeb

/-- Python substring membership on char lists: `isPrefixChars needle hay`
is `needle` being a prefix of `hay`. -/
def isPrefixChars : List Char → List Char → Bool
  | [], _ => true
  | _ :: _, [] => false
  | a :: as, b :: bs => a = b && isPrefixChars as bs

/-- `isInfixChars needle hay` : `needle` occurs contiguously in `hay`
(Python `needle in hay` on strings). -/
def isInfixChars (needle : List Char) : List Char → Bool
  | [] => isPrefixChars needle []
  | b :: bs => isPrefixChars needle (b :: bs) || isInfixChars needle bs

/-- Python `sub in s` for strings. -/
def containsSub (s sub : String) : Bool := isInfixChars sub.toList s.toList

/-- Python `str.lower()`, character by character (the error messages and
language codes involved are ASCII, where this agrees with Python). -/
def pyLower (s : String) : String := ⟨s.toList.map Char.toLower⟩

/-- Python `str.strip()`: removes leading and trailing whitespace. -/
def pyStrip (s : String) : String :=
  ⟨((s.toList.dropWhile Char.isWhitespace).reverse.dropWhile Char.isWhitespace).reverse⟩

/-- The object returned by `translator.translate` (googletrans `Translated`):
the code reads only `.text`; `.src` is the detected source language, which
the googletrans object carries but `app.py` never reads. -/
structure Translated where
  text : Option String
  src : String
deriving DecidableEq, Repr

/-- Outcome of one call to `translator.translate`: it returns an object
(possibly `None`) or raises an exception carrying a message string. -/
inductive CallResult where
  | ret (translated : Option Translated)
  | raises (msg : String)
deriving DecidableEq, Repr

/-- Python truthiness of `translated.text` (`None` and `""` are falsy). -/
def truthyText : Option String → Bool
  | some s => s ≠ ""
  | none => false

/-- The exception message raised at app.py line 44 when the provider
returns `None` or an empty/falsy text. -/
def emptyMsg : String := "Empty or invalid translation response from Google Translate."

/-- The transient-error classifier of app.py line 50: the lowered exception
string is tested for four substrings. -/
def isTransient (msg : String) : Bool :=
  containsSub (pyLower msg) "too many requests" || containsSub (pyLower msg) "timeout"
    || containsSub (pyLower msg) "connection"
    || containsSub (pyLower msg) "bad response from google translate"

/-- The body of the `try` block (app.py lines 37-44) for one attempt:
either the translated text is returned, or an exception message reaches
the `except` handler (raised by the provider, or raised at line 44 for an
empty/`None` result). -/
def attemptResult : CallResult → Except String String
  | .ret (some t) =>
      match t.text with
      | some s => if s ≠ "" then .ok s else .error emptyMsg
      | none => .error emptyMsg
  | .ret none => .error emptyMsg
  | .raises m => .error m

/-- Observable outcome of one run of `translate_text_logic`: the returned
value (`None` on failure), the number of `translator.translate` calls made,
and the list of `time.sleep` delays in order. -/
structure RunResult where
  result : Option String
  attempts : Nat
  sleeps : List Nat
deriving DecidableEq, Repr

/-- The `while retries < max_retries` loop of `translate_text_logic`
(app.py lines 34-57), as structural recursion on the fuel
`remaining = max_retries - retries`; `retries` is carried because the
backoff delay is `initial_delay * 2 ** (retries - 1)` computed after the
increment, i.e. `initial_delay * 2 ** retries` for the pre-increment value. -/
def loop (calls : Nat → CallResult) (initial_delay : Nat) :
    Nat → Nat → RunResult
  | _, 0 => ⟨none, 0, []⟩
  | retries, remaining + 1 =>
      match attemptResult (calls retries) with
      | .ok s => ⟨some s, 1, []⟩
      | .error msg =>
          if isTransient msg then
            let delay := initial_delay * 2 ^ retries
            let r := loop calls initial_delay (retries + 1) remaining
            ⟨r.result, r.attempts + 1, delay :: r.sleeps⟩
          else
            ⟨none, 1, []⟩

/-- `translate_text_logic(text, src, dest, max_retries=3, initial_delay=1)`
(app.py lines 29-60).  The provider is the oracle `calls`, giving the
outcome of the `i`-th `translator.translate` invocation; the text and
language arguments only flow to the provider and to logging, so they are
absorbed into the oracle. -/
def translate_text_logic (calls : Nat → CallResult)
    (max_retries : Nat := 3) (initial_delay : Nat := 1) : RunResult :=
  loop calls initial_delay 0 max_retries

/-- Python `str.split(sep)` for a one-character separator (on char lists):
always returns a non-empty list of segments. -/
def pySplit (sep : Char) : List Char → List (List Char)
  | [] => [[]]
  | c :: cs =>
      let r := pySplit sep cs
      if c = sep then [] :: r
      else (c :: r.headD []) :: r.tail

/-- `app.config['UPLOAD_FOLDER'] = 'static/audio'` (app.py line 13). -/
def UPLOAD_FOLDER : String := "static/audio"

/-- Outcome of the gTTS interaction inside the `try` block of
`synthesize_speech_to_file` (construction plus `tts.save`): succeeds, or
raises somewhere with a message. -/
inductive GttsOutcome where
  | ok
  | raises (msg : String)
deriving DecidableEq, Repr

/-- Observable outcome of one run of `synthesize_speech_to_file`: the
returned value (`None` on failure), the (text, lang) arguments passed to
the gTTS provider, and the file paths written by `tts.save`. -/
structure SynthRun where
  url : Option String
  gttsCalls : List (String × String)
  savedFiles : List String
deriving DecidableEq, Repr

/-- `synthesize_speech_to_file(text, lang_code)` (app.py lines 63-83):
derives `gtts_lang_code = lang_code.split('-')[0]`, calls gTTS, saves the
audio as `<uuid4>.mp3` under `UPLOAD_FOLDER`, returns
`/static/audio/<uuid4>.mp3`; any exception is caught and `None` returned.
The uuid oracle is `uid`; the provider outcome is the `outcome` oracle. -/
def synthesize_speech_to_file (outcome : GttsOutcome) (uid : String)
    (text lang_code : String) : SynthRun :=
  let gtts_lang_code : String := ⟨(pySplit '-' lang_code.toList).headD []⟩
  match outcome with
  | .raises _ => { url := none, gttsCalls := [(text, gtts_lang_code)], savedFiles := [] }
  | .ok =>
      let audio_filename := uid ++ ".mp3"
      let audio_filepath := UPLOAD_FOLDER ++ "/" ++ audio_filename
      { url := some ("/static/audio/" ++ audio_filename)
        gttsCalls := [(text, gtts_lang_code)]
        savedFiles := [audio_filepath] }

/-- The JSON body of a `POST /translate` request (app.py lines 97-102).
Absent keys are `none`; `data.get` supplies the defaults.  `slow_speech`
appears in the spec's request schema; the field is carried here so that
its effect (or absence of one) on the handler can be stated. -/
structure Request where
  text : Option String
  src_lang : Option String
  dest_lang : Option String
  speak_output : Option Bool
  slow_speech : Option Bool
deriving DecidableEq, Repr

/-- The JSON object passed to `jsonify` (app.py lines 109-115 and 126-132):
both branches build a dict with exactly these five keys. -/
structure ResponseData where
  original_text : String
  translated_text : String
  audio_url : Option String
  src_lang_name : String
  dest_lang_name : String
deriving DecidableEq, Repr

/-- The keys of the response dict, in source order (identical in the
empty-input branch and the main branch). -/
def ResponseData.keys : List String :=
  ["original_text", "translated_text", "audio_url", "src_lang_name", "dest_lang_name"]

/-- `get_language_name(code)` (app.py lines 24-26): looks up
`LANGUAGES`, falling back to `f"Unknown ({code})"`.  `LANGUAGES` is
googletrans data, passed in as an association list. -/
def get_language_name (languages : List (String × String)) (code : String) : String :=
  match languages.lookup (pyLower code) with
  | some n => n
  | none => "Unknown (" ++ code ++ ")"

/-- Observable outcome of one run of the `/translate` handler: HTTP
status, response body, number of `translator.translate` calls, the sleep
delays, the gTTS calls and the audio files written. -/
structure HandlerRun where
  status : Nat
  response : ResponseData
  transAttempts : Nat
  sleeps : List Nat
  synthCalls : List (String × String)
  savedFiles : List String
deriving DecidableEq, Repr

/-- The `/translate` handler (app.py lines 94-133).  Oracles: `languages`
(the googletrans `LANGUAGES` table), `transCalls` (the translation
provider, per attempt), `synthOutcome` (the gTTS provider), `uid` (the
uuid4 value).  Note the handler never reads `slow_speech`, and
`translate_text_logic` is called with its defaults (3, 1). -/
def translate (languages : List (String × String)) (transCalls : Nat → CallResult)
    (synthOutcome : GttsOutcome) (uid : String) (req : Request) : HandlerRun :=
  let input_text := pyStrip (req.text.getD "")
  let src_lang_code := pyLower (req.src_lang.getD "en")
  let dest_lang_code := pyLower (req.dest_lang.getD "es")
  let speak_output := req.speak_output.getD false
  let src_lang_name := get_language_name languages src_lang_code
  let dest_lang_name := get_language_name languages dest_lang_code
  if input_text = "" then
    { status := 200
      response :=
        { original_text := ""
          translated_text := "Please enter some text to translate."
          audio_url := none
          src_lang_name := src_lang_name
          dest_lang_name := dest_lang_name }
      transAttempts := 0, sleeps := [], synthCalls := [], savedFiles := [] }
  else
    let tr := translate_text_logic transCalls 3 1
    let synthRun : Option SynthRun :=
      match tr.result with
      | some t =>
          if t ≠ "" && speak_output then
            some (synthesize_speech_to_file synthOutcome uid t dest_lang_code)
          else none
      | none => none
    let audio_url : Option String :=
      match synthRun with
      | some sr => sr.url
      | none => none
    { status := 200
      response :=
        { original_text := input_text
          translated_text :=
            tr.result.getD "Translation failed. Please try again or check server logs."
          audio_url := audio_url
          src_lang_name := src_lang_name
          dest_lang_name := dest_lang_name }
      transAttempts := tr.attempts
      sleeps := tr.sleeps
      synthCalls := match synthRun with | some sr => sr.gttsCalls | none => []
      savedFiles := match synthRun with | some sr => sr.savedFiles | none => [] }

/-! ### Helper lemmas about the retry loop -/

/-- Unfolded delay list for one extra round of backoff. -/
theorem range_map_pow (d r n : Nat) :
    (List.range (n + 1)).map (fun i => d * 2 ^ (r + i)) =
      (d * 2 ^ r) :: (List.range n).map (fun i => d * 2 ^ (r + 1 + i)) := by
  rw [List.range_succ_eq_map, List.map_cons, List.map_map]
  refine congrArg₂ _ (by rw [Nat.add_zero]) ?_
  apply List.map_congr_left
  intro i _
  simp only [Function.comp_apply]
  congr 2
  omega

/-- If every attempt the loop can make fails with a transient error, the
loop exhausts its fuel: no result, one attempt per fuel unit, and a
backoff sleep after every failure (including the last). -/
theorem loop_all_transient (calls : Nat → CallResult) (d : Nat) :
    ∀ remaining retries,
      (∀ i, i < remaining →
        ∃ m, attemptResult (calls (retries + i)) = Except.error m ∧ isTransient m = true) →
      loop calls d retries remaining =
        ⟨none, remaining, (List.range remaining).map (fun i => d * 2 ^ (retries + i))⟩ := by
  intro remaining
  induction remaining with
  | zero => intro retries _; rfl
  | succ n ih =>
      intro retries h
      obtain ⟨m, hm, ht⟩ := h 0 (Nat.succ_pos n)
      rw [Nat.add_zero] at hm
      have hrec := ih (retries + 1) (fun i hi => by
        have h2 := h (i + 1) (Nat.succ_lt_succ hi)
        have he : retries + (i + 1) = retries + 1 + i := by omega
        rwa [he] at h2)
      simp only [loop, hm, ht, if_true]
      rw [hrec, range_map_pow]

/-- If the first attempt fails with a non-transient error, the loop stops
at once: no result, a single attempt, no sleep. -/
theorem loop_first_fatal (calls : Nat → CallResult) (d retries n : Nat) (m : String)
    (he : attemptResult (calls retries) = Except.error m) (ht : isTransient m = false) :
    loop calls d retries (n + 1) = ⟨none, 1, []⟩ := by
  simp [loop, he, ht]

/-- If the first `k` attempts fail transiently and attempt `k` succeeds
with `s`, the loop returns `s` after `k + 1` attempts, sleeping once per
failure with exponentially growing delays. -/
theorem loop_transient_then_ok (calls : Nat → CallResult) (d : Nat) (s : String) :
    ∀ k retries remaining, k < remaining →
      (∀ i, i < k →
        ∃ m, attemptResult (calls (retries + i)) = Except.error m ∧ isTransient m = true) →
      attemptResult (calls (retries + k)) = Except.ok s →
      loop calls d retries remaining =
        ⟨some s, k + 1, (List.range k).map (fun i => d * 2 ^ (retries + i))⟩ := by
  intro k
  induction k with
  | zero =>
      intro retries remaining hk _ hok
      obtain ⟨n, rfl⟩ := Nat.exists_eq_succ_of_ne_zero (by omega : remaining ≠ 0)
      rw [Nat.add_zero] at hok
      simp [loop, hok]
  | succ k ih =>
      intro retries remaining hk hfail hok
      obtain ⟨n, rfl⟩ := Nat.exists_eq_succ_of_ne_zero (by omega : remaining ≠ 0)
      obtain ⟨m, hm, ht⟩ := hfail 0 (Nat.succ_pos k)
      rw [Nat.add_zero] at hm
      have hrec := ih (retries + 1) n (by omega)
        (fun i hi => by
          have h2 := hfail (i + 1) (Nat.succ_lt_succ hi)
          have he : retries + (i + 1) = retries + 1 + i := by omega
          rwa [he] at h2)
        (by
          have he : retries + (k + 1) = retries + 1 + k := by omega
          rwa [he] at hok)
      simp only [loop, hm, ht, if_true]
      rw [hrec, range_map_pow]

/-- The result text of the loop is never the empty string: the `try` body
only returns `translated.text` when it is truthy. -/
theorem attemptResult_ok_ne_empty (c : CallResult) (s : String)
    (h : attemptResult c = Except.ok s) : s ≠ "" := by
  cases c with
  | raises m => simp [attemptResult] at h
  | ret o =>
      cases o with
      | none => simp [attemptResult] at h
      | some t =>
          cases htt : t.text with
          | none => simp [attemptResult, htt] at h
          | some u =>
              by_cases hu : u = "" <;>
                simp [attemptResult, htt, hu] at h
              exact h ▸ hu

/-- Any successful result of the loop is a non-empty string. -/
theorem loop_result_ne_empty (calls : Nat → CallResult) (d : Nat) :
    ∀ remaining retries s, (loop calls d retries remaining).result = some s → s ≠ "" := by
  intro remaining
  induction remaining with
  | zero => intro retries s h; simp [loop] at h
  | succ n ih =>
      intro retries s h
      cases har : attemptResult (calls retries) with
      | ok t =>
          simp only [loop, har] at h
          cases h
          exact attemptResult_ok_ne_empty _ _ har
      | error m =>
          by_cases ht : isTransient m = true
          · simp only [loop, har, ht, if_true] at h
            exact ih (retries + 1) s h
          · simp only [loop, har, Bool.not_eq_true] at ht
            simp [loop, har, ht] at h

/-! ### Claims about the translation retry wrapper -/

/-- C1 (counterexample): with `max_retries = 3`, `initial_delay = 1` and a
provider that raises a transient "timeout" error on every attempt, the
wrapper does fail after exactly 3 attempts, but it sleeps three times with
delays 1s, 2s, 4s — not twice with delays 1s, 2s: a sleep also happens
after the 3rd (final) failure, because `time.sleep` runs inside the
`except` block before the `while` condition is re-checked. -/
theorem C1_exhaustion_counterexample :
    (translate_text_logic (fun _ => CallResult.raises "timeout") 3 1).result = none ∧
    (translate_text_logic (fun _ => CallResult.raises "timeout") 3 1).attempts = 3 ∧
    (translate_text_logic (fun _ => CallResult.raises "timeout") 3 1).sleeps = [1, 2, 4] ∧
    (translate_text_logic (fun _ => CallResult.raises "timeout") 3 1).sleeps ≠ [1, 2] := by
  refine ⟨rfl, rfl, rfl, ?_⟩
  decide

/-- C1 (amended): for every run of the wrapper with `max_retries = 3` and
`initial_delay = 1` in which the provider call fails with a transient
error on all 3 attempts, the wrapper returns Failure, performs exactly 3
attempts, and sleeps exactly three times with delays 1s, 2s, 4s — a
backoff sleep also follows the 3rd (final) failure. -/
theorem C1_exhaustion (calls : Nat → CallResult)
    (h : ∀ i, i < 3 →
      ∃ m, attemptResult (calls i) = Except.error m ∧ isTransient m = true) :
    translate_text_logic calls 3 1 = ⟨none, 3, [1, 2, 4]⟩ := by
  have h2 := loop_all_transient calls 1 3 0 (by simpa using h)
  unfold translate_text_logic
  rw [h2]
  rfl

/-- C1 witness: a provider raising "timeout" on every attempt satisfies
the hypothesis, and the amended conclusion holds there. -/
theorem C1_exhaustion_witness :
    translate_text_logic (fun _ => CallResult.raises "Read timeout") 3 1 =
      ⟨none, 3, [1, 2, 4]⟩ :=
  C1_exhaustion (fun _ => CallResult.raises "Read timeout")
    (fun _ _ => ⟨"Read timeout", rfl, by decide⟩)

/-- C3: if the provider fails with transient errors on the first `k`
attempts (`k < max_retries`) and then succeeds with a non-empty result
`s`, the wrapper returns `s` after `k + 1` attempts and sleeps exactly `k`
times with delays `initial_delay * 2 ^ (attempt - 1)` for the 1-indexed
failing attempts `1..k`. -/
theorem C3_backoff_then_success (calls : Nat → CallResult)
    (k max_retries initial_delay : Nat) (s : String)
    (hk : k < max_retries)
    (hfail : ∀ i, i < k →
      ∃ m, attemptResult (calls i) = Except.error m ∧ isTransient m = true)
    (hok : attemptResult (calls k) = Except.ok s) :
    translate_text_logic calls max_retries initial_delay =
      ⟨some s, k + 1, (List.range k).map (fun i => initial_delay * 2 ^ i)⟩ := by
  have h2 := loop_transient_then_ok calls initial_delay s k 0 max_retries hk
    (by simpa using hfail) (by simpa using hok)
  unfold translate_text_logic
  rw [h2]
  simp

/-- C3 witness: two "Timeout!" failures then success with "hola" yields
the successful result after 3 attempts with sleeps 1s then 2s. -/
theorem C3_backoff_then_success_witness :
    translate_text_logic
      (fun i => if i < 2 then CallResult.raises "Timeout!"
                else CallResult.ret (some ⟨some "hola", "en"⟩)) 3 1 =
      ⟨some "hola", 3, [1, 2]⟩ := by
  rw [C3_backoff_then_success
    (fun i => if i < 2 then CallResult.raises "Timeout!"
              else CallResult.ret (some ⟨some "hola", "en"⟩)) 2 3 1 "hola"
    (by omega)
    (by intro i hi
        interval_cases i <;> exact ⟨"Timeout!", rfl, by decide⟩)
    rfl]
  rfl

/-- C4: if the first provider call fails with an error whose message
matches none of the transient substrings, the wrapper returns Failure
after exactly one attempt, with no retry and no sleep. -/
theorem C4_nonretryable (calls : Nat → CallResult) (max_retries initial_delay : Nat)
    (m : String) (hm : 0 < max_retries)
    (he : attemptResult (calls 0) = Except.error m) (ht : isTransient m = false) :
    translate_text_logic calls max_retries initial_delay = ⟨none, 1, []⟩ := by
  obtain ⟨n, rfl⟩ := Nat.exists_eq_succ_of_ne_zero (by omega : max_retries ≠ 0)
  exact loop_first_fatal calls initial_delay 0 n m he ht

/-- C4 witness: a provider raising "invalid argument" on the first call
makes the wrapper fail immediately with one attempt and no sleep. -/
theorem C4_nonretryable_witness :
    translate_text_logic (fun _ => CallResult.raises "invalid argument") 3 1 =
      ⟨none, 1, []⟩ :=
  C4_nonretryable (fun _ => CallResult.raises "invalid argument") 3 1
    "invalid argument" (by omega) rfl (by decide)

/-- C9: if the first provider call returns `None` or an object with a
falsy (empty or `None`) text, the wrapper raises and immediately fails:
the message "Empty or invalid translation response from Google
Translate." matches none of the transient substrings, so the run ends
after a single attempt with no sleep and no retry. -/
theorem C9_empty_response (calls : Nat → CallResult) (max_retries initial_delay : Nat)
    (hm : 0 < max_retries)
    (h : calls 0 = CallResult.ret none ∨
      ∃ t, calls 0 = CallResult.ret (some t) ∧ truthyText t.text = false) :
    translate_text_logic calls max_retries initial_delay = ⟨none, 1, []⟩ ∧
      isTransient emptyMsg = false := by
  have he : attemptResult (calls 0) = Except.error emptyMsg := by
    rcases h with h | ⟨t, ht, htr⟩
    · rw [h]; rfl
    · rw [ht]
      cases htt : t.text with
      | none => simp [attemptResult, htt]
      | some u =>
          have hu : u = "" := by simpa [truthyText, htt] using htr
          simp [attemptResult, htt, hu]
  have ht : isTransient emptyMsg = false := by decide
  obtain ⟨n, rfl⟩ := Nat.exists_eq_succ_of_ne_zero (by omega : max_retries ≠ 0)
  exact ⟨loop_first_fatal calls initial_delay 0 n emptyMsg he ht, ht⟩

/-- C9 witness: a provider returning an object with empty text makes the
wrapper fail after one attempt without sleeping. -/
theorem C9_empty_response_witness :
    translate_text_logic (fun _ => CallResult.ret (some ⟨some "", "en"⟩)) 3 1 =
      ⟨none, 1, []⟩ ∧ isTransient emptyMsg = false :=
  C9_empty_response (fun _ => CallResult.ret (some ⟨some "", "en"⟩)) 3 1
    (by omega) (Or.inr ⟨⟨some "", "en"⟩, rfl, by decide⟩)

/-! ### Claims about the speech synthesis writer and the request handler -/

/-- The first segment of a Python `split` is exactly the portion of the
string before the first occurrence of the separator. -/
theorem pySplit_headD (sep : Char) (l : List Char) :
    (pySplit sep l).headD [] = l.takeWhile (fun c => c ≠ sep) := by
  induction l with
  | nil => rfl
  | cons c cs ih =>
      by_cases h : c = sep
      · simp [pySplit, h]
      · simp [pySplit, h]
        simpa using ih

/-- C8: on success, the speech-synthesis writer invokes the provider with
the portion of the language code before the "-" region delimiter, writes
the audio to `<uid>.mp3` inside the public audio directory
('static/audio'), and returns the root-relative URL
`/static/audio/<uid>.mp3` naming that file; on any error it returns
Failure after that single provider attempt, writing nothing. -/
theorem C8_synthesize (uid text lang_code : String) :
    (synthesize_speech_to_file GttsOutcome.ok uid text lang_code).gttsCalls =
        [(text, String.mk (lang_code.toList.takeWhile (fun c => c ≠ '-')))] ∧
    (synthesize_speech_to_file GttsOutcome.ok uid text lang_code).url =
        some ("/static/audio/" ++ (uid ++ ".mp3")) ∧
    (synthesize_speech_to_file GttsOutcome.ok uid text lang_code).savedFiles =
        [UPLOAD_FOLDER ++ "/" ++ (uid ++ ".mp3")] ∧
    ∀ m, (synthesize_speech_to_file (GttsOutcome.raises m) uid text lang_code).url = none ∧
      (synthesize_speech_to_file (GttsOutcome.raises m) uid text lang_code).gttsCalls =
        [(text, String.mk (lang_code.toList.takeWhile (fun c => c ≠ '-')))] ∧
      (synthesize_speech_to_file (GttsOutcome.raises m) uid text lang_code).savedFiles = [] := by
  have hsplit : (⟨(pySplit '-' lang_code.toList).headD []⟩ : String) =
      String.mk (lang_code.toList.takeWhile (fun c => c ≠ '-')) :=
    congrArg _ (pySplit_headD '-' lang_code.toList)
  refine ⟨?_, rfl, rfl, fun m => ⟨rfl, ?_, rfl⟩⟩ <;>
    simp only [synthesize_speech_to_file, hsplit]

/-- C8 example: "en-US" is reduced to "en" before the provider call, and
the URL and file name agree on `<uid>.mp3`. -/
theorem C8_synthesize_witness :
    (synthesize_speech_to_file GttsOutcome.ok "u1" "hello" "en-US").gttsCalls =
        [("hello", "en")] ∧
    (synthesize_speech_to_file GttsOutcome.ok "u1" "hello" "en-US").url =
        some "/static/audio/u1.mp3" ∧
    (synthesize_speech_to_file GttsOutcome.ok "u1" "hello" "en-US").savedFiles =
        ["static/audio/u1.mp3"] :=
  ⟨(C8_synthesize "u1" "hello" "en-US").1, rfl, rfl⟩

/-- C5: a request whose text is empty (or whitespace-only) after
stripping short-circuits: status 200, the fixed friendly message, a null
audio URL, and no call at all to the translation provider, the
speech-synthesis provider, or the filesystem. -/
theorem C5_empty_input (languages : List (String × String))
    (transCalls : Nat → CallResult) (synthOutcome : GttsOutcome) (uid : String)
    (req : Request) (h : pyStrip (req.text.getD "") = "") :
    translate languages transCalls synthOutcome uid req =
      { status := 200
        response :=
          { original_text := ""
            translated_text := "Please enter some text to translate."
            audio_url := none
            src_lang_name := get_language_name languages (pyLower (req.src_lang.getD "en"))
            dest_lang_name := get_language_name languages (pyLower (req.dest_lang.getD "es")) }
        transAttempts := 0, sleeps := [], synthCalls := [], savedFiles := [] } := by
  unfold translate
  rw [if_pos h]

/-- C5 witness: a whitespace-only text triggers the short-circuit even
with `speak_output = true` and a provider that would succeed. -/
theorem C5_empty_input_witness :
    translate [("en", "english"), ("es", "spanish")]
      (fun _ => CallResult.ret (some ⟨some "hola", "en"⟩)) GttsOutcome.ok "u1"
      { text := some "   ", src_lang := none, dest_lang := none,
        speak_output := some true, slow_speech := none } =
      { status := 200
        response :=
          { original_text := ""
            translated_text := "Please enter some text to translate."
            audio_url := none
            src_lang_name := "english"
            dest_lang_name := "spanish" }
        transAttempts := 0, sleeps := [], synthCalls := [], savedFiles := [] } := by
  rw [C5_empty_input [("en", "english"), ("es", "spanish")]
    (fun _ => CallResult.ret (some ⟨some "hola", "en"⟩)) GttsOutcome.ok "u1"
    { text := some "   ", src_lang := none, dest_lang := none,
      speak_output := some true, slow_speech := none } (by decide)]
  decide

/-- C2: the response's `audio_url` is non-null exactly when the input
text is non-empty after stripping, the translation wrapper succeeded,
speech output was requested, and the gTTS synthesis succeeded; in every
other case it is null. -/
theorem C2_audio_url_iff (languages : List (String × String))
    (transCalls : Nat → CallResult) (synthOutcome : GttsOutcome) (uid : String)
    (req : Request) :
    (translate languages transCalls synthOutcome uid req).response.audio_url ≠ none ↔
      (pyStrip (req.text.getD "") ≠ "" ∧
        (translate_text_logic transCalls 3 1).result ≠ none ∧
        req.speak_output.getD false = true ∧
        synthOutcome = GttsOutcome.ok) := by
  unfold translate
  by_cases hempty : pyStrip (req.text.getD "") = ""
  · simp [hempty]
  · cases hres : (translate_text_logic transCalls 3 1).result with
    | none => simp [hempty, hres]
    | some t =>
        have htne : t ≠ "" :=
          loop_result_ne_empty transCalls 1 3 0 t hres
        cases hspeak : req.speak_output.getD false with
        | false => simp [hempty, hres, hspeak]
        | true =>
            cases synthOutcome with
            | ok => simp [hempty, hres, hspeak, htne, synthesize_speech_to_file]
            | raises m => simp [hempty, hres, hspeak, htne, synthesize_speech_to_file]

/-- C6 (counterexample): the retry wrapper's return value carries no
detected source language — on a first-attempt success where the provider
object reports detected source "fr", the wrapper's entire outcome is the
bare text — and the response dict built by the handler has exactly five
keys, none of which is `detected_src_lang_code`. -/
theorem C6_counterexample :
    translate_text_logic (fun _ => CallResult.ret (some ⟨some "Bonjour", "fr"⟩)) 3 1 =
      ⟨some "Bonjour", 1, []⟩ ∧
    "detected_src_lang_code" ∉ ResponseData.keys := by
  exact ⟨rfl, by decide⟩

/-- C6 (amended): on success the retry wrapper returns only the
translated text (the detected source language reported by the provider is
discarded), and the /translate response JSON carries that text in
`translated_text` but contains no `detected_src_lang_code` field at all
(its keys are exactly original_text, translated_text, audio_url,
src_lang_name, dest_lang_name). -/
theorem C6_no_detected_lang (languages : List (String × String))
    (transCalls : Nat → CallResult) (synthOutcome : GttsOutcome) (uid : String)
    (req : Request) (s : String)
    (hne : pyStrip (req.text.getD "") ≠ "")
    (h : (translate_text_logic transCalls 3 1).result = some s) :
    (translate languages transCalls synthOutcome uid req).response.translated_text = s ∧
    "detected_src_lang_code" ∉ ResponseData.keys := by
  refine ⟨?_, by decide⟩
  unfold translate
  rw [if_neg hne]
  simp [h]

/-- C6 witness: a successful translation to "Bonjour" (detected source
"fr") yields a response whose translated_text is "Bonjour"; no
detected_src_lang_code key exists. -/
theorem C6_no_detected_lang_witness :
    (translate [] (fun _ => CallResult.ret (some ⟨some "Bonjour", "fr"⟩))
        GttsOutcome.ok "u1"
        { text := some "Hello", src_lang := some "auto", dest_lang := some "fr",
          speak_output := some false, slow_speech := none }).response.translated_text =
      "Bonjour" ∧
    "detected_src_lang_code" ∉ ResponseData.keys :=
  C6_no_detected_lang [] (fun _ => CallResult.ret (some ⟨some "Bonjour", "fr"⟩))
    GttsOutcome.ok "u1"
    { text := some "Hello", src_lang := some "auto", dest_lang := some "fr",
      speak_output := some false, slow_speech := none } "Bonjour" (by decide) rfl

/-- C7 (counterexample): two identical requests that differ only in
`slow_speech` (true vs false) produce identical handler runs, and the
gTTS provider call made for them carries only (text, language) — no slow
flag is read from the request or passed to the provider. -/
theorem C7_counterexample :
    translate [] (fun _ => CallResult.ret (some ⟨some "hola", "en"⟩))
        GttsOutcome.ok "u1"
        { text := some "hello", src_lang := some "en", dest_lang := some "es",
          speak_output := some true, slow_speech := some true } =
      translate [] (fun _ => CallResult.ret (some ⟨some "hola", "en"⟩))
        GttsOutcome.ok "u1"
        { text := some "hello", src_lang := some "en", dest_lang := some "es",
          speak_output := some true, slow_speech := some false } ∧
    (translate [] (fun _ => CallResult.ret (some ⟨some "hola", "en"⟩))
        GttsOutcome.ok "u1"
        { text := some "hello", src_lang := some "en", dest_lang := some "es",
          speak_output := some true, slow_speech := some true }).synthCalls =
      [("hola", "es")] :=
  ⟨rfl, rfl⟩

/-- C7 (amended): the handler never reads `slow_speech` — its entire
observable behavior is unchanged under any value of that field — and the
speech-synthesis provider is invoked with only the text and the language
code, so gTTS's default speed (slow=false) always applies. -/
theorem C7_slow_speech_ignored (languages : List (String × String))
    (transCalls : Nat → CallResult) (synthOutcome : GttsOutcome) (uid : String)
    (req : Request) (b : Option Bool) :
    translate languages transCalls synthOutcome uid { req with slow_speech := b } =
      translate languages transCalls synthOutcome uid req := rfl

/-- C10: when the stripped input is non-empty and translation fails, the
speech-synthesis writer is never invoked (even with `speak_output=true`),
nothing is written, and the response carries the stripped input, the
fixed failure sentence, and a null audio URL. -/
theorem C10_failure_no_synthesis (languages : List (String × String))
    (transCalls : Nat → CallResult) (synthOutcome : GttsOutcome) (uid : String)
    (req : Request)
    (hne : pyStrip (req.text.getD "") ≠ "")
    (h : (translate_text_logic transCalls 3 1).result = none) :
    (translate languages transCalls synthOutcome uid req).synthCalls = [] ∧
    (translate languages transCalls synthOutcome uid req).savedFiles = [] ∧
    (translate languages transCalls synthOutcome uid req).response.original_text =
      pyStrip (req.text.getD "") ∧
    (translate languages transCalls synthOutcome uid req).response.translated_text =
      "Translation failed. Please try again or check server logs." ∧
    (translate languages transCalls synthOutcome uid req).response.audio_url = none := by
  unfold translate
  rw [if_neg hne]
  simp [h]

/-- C10 witness: a non-retryable provider failure with `speak_output=true`
yields the failure sentence, no synthesis call, and a null audio URL. -/
theorem C10_failure_no_synthesis_witness :
    (translate [] (fun _ => CallResult.raises "invalid argument")
        GttsOutcome.ok "u1"
        { text := some "hello", src_lang := some "en", dest_lang := some "es",
          speak_output := some true, slow_speech := none }).synthCalls = [] ∧
    (translate [] (fun _ => CallResult.raises "invalid argument")
        GttsOutcome.ok "u1"
        { text := some "hello", src_lang := some "en", dest_lang := some "es",
          speak_output := some true, slow_speech := none }).savedFiles = [] ∧
    (translate [] (fun _ => CallResult.raises "invalid argument")
        GttsOutcome.ok "u1"
        { text := some "hello", src_lang := some "en", dest_lang := some "es",
          speak_output := some true, slow_speech := none }).response.original_text =
      pyStrip ((some "hello").getD "") ∧
    (translate [] (fun _ => CallResult.raises "invalid argument")
        GttsOutcome.ok "u1"
        { text := some "hello", src_lang := some "en", dest_lang := some "es",
          speak_output := some true, slow_speech := none }).response.translated_text =
      "Translation failed. Please try again or check server logs." ∧
    (translate [] (fun _ => CallResult.raises "invalid argument")
        GttsOutcome.ok "u1"
        { text := some "hello", src_lang := some "en", dest_lang := some "es",
          speak_output := some true, slow_speech := none }).response.audio_url = none :=
  C10_failure_no_synthesis [] (fun _ => CallResult.raises "invalid argument")
    GttsOutcome.ok "u1"
    { text := some "hello", src_lang := some "en", dest_lang := some "es",
      speak_output := some true, slow_speech := none }
    (by decide) (by decide)

end SingleTranslatorWeb
